import Mathlib

/-!
Shallow embedding of the core subsystems of the `ravarch/agent` worker:
the chunker and indexing loop of `src/worker/index.ts` (`/api/upload`),
the capability registry of `src/worker/tools.ts` (`getTools`),
the session/turn loop of the `SuperAgent` actor (`onMessage`,
`broadcastResult`), the workflow trigger (`SuperAgent.triggerWorkflow` /
`start_deep_research`), and the `ResearchWorkflow.run` pipeline of
`src/worker/workflow.ts` executed over a durable step log.

External collaborators (Workers AI, Vectorize, R2, puppeteer, the
Workflows engine) are modelled as oracle records of pure functions;
fallible collaborator calls return `Except String`, mirroring thrown
JavaScript exceptions.
-/

namespace AgentSpec

/-- Embedding vectors as returned by the embedding model; modelled
abstractly as lists of integers (their contents are never inspected by
the worker code, only passed between collaborators). -/
abbrev Vec := List Int

/-! ## Chunker (`src/worker/index.ts`, `/api/upload` handler)

```
const chunkSize = 800;
const overlap = 100;
const chunks: string[] = [];
for (let i = 0; i < markdownContent.length; i += (chunkSize - overlap)) {
  chunks.push(markdownContent.substring(i, i + chunkSize));
}
```

`substring(i, i + size)` over the character sequence is
`(text.drop i).take size`; advancing `i` by `step = size - overlap`
re-indexes the loop as structural recursion on `text.drop step`.  The
loop guard `i < markdownContent.length` holds exactly while the dropped
remainder is nonempty.  `fuel` bounds the recursion; `text.length` fuel
is exact whenever `step ≥ 1` (when `step = 0` the JavaScript loop does
not terminate, a case outside every claim, which all assume
`overlap < size`). -/

def chunkAux (size step : Nat) : Nat → List Char → List (List Char)
  | 0, _ => []
  | _ + 1, [] => []
  | fuel + 1, c :: cs => (c :: cs).take size :: chunkAux size step fuel ((c :: cs).drop step)

/-- The chunking loop of `/api/upload`: windows `text[i : i+size]`,
`i` advancing by `size - overlap` while `i < text.length`. -/
def chunk (text : List Char) (size overlap : Nat) : List (List Char) :=
  chunkAux size (size - overlap) text.length text

/-! ## JavaScript runtime helpers -/

/-- Uppercase hexadecimal digit, as produced by `encodeURIComponent`. -/
def hexDigit (n : Nat) : Char :=
  if n < 10 then Char.ofNat (48 + n) else Char.ofNat (55 + n)

/-- Percent-encoding of one UTF-8 byte (`%XY`). -/
def percentEncodeByte (b : UInt8) : List Char :=
  [Char.ofNat 37, hexDigit (b.toNat / 16), hexDigit (b.toNat % 16)]

/-- Characters `encodeURIComponent` leaves unescaped:
`A–Z a–z 0–9 - _ . ! ~ * ' ( )`. -/
def isUriUnreserved (c : Char) : Bool :=
  c.isAlphanum ||
    [Char.ofNat 45, Char.ofNat 95, Char.ofNat 46, Char.ofNat 33, Char.ofNat 126,
     Char.ofNat 42, Char.ofNat 39, Char.ofNat 40, Char.ofNat 41].contains c

/-- The JavaScript builtin `encodeURIComponent`: unreserved characters
pass through, every other character is UTF-8 percent-encoded. -/
def encodeURIComponent (s : String) : String :=
  String.mk (s.toList.flatMap fun c =>
    if isUriUnreserved c then [c]
    else (String.toUTF8 (String.mk [c])).toList.flatMap percentEncodeByte)

/-- JavaScript `a || b` on strings: the empty string is falsy. -/
def jsOr (a b : String) : String := if a = "" then b else a

/-- JavaScript template-literal interpolation of a possibly-absent
value: an absent (`undefined`) field renders as the string
`"undefined"`. -/
def tsInterp : Option String → String
  | some s => s
  | none => "undefined"

/-- The Google-search fallback/search URL built by `tools.ts` and
`workflow.ts`. -/
def googleSearchUrl (q : String) : String :=
  "https://www.google.com/search?q=" ++ encodeURIComponent q

/-! ## Workflow run parameters

`ResearchWorkflow` declares `Params = { topic; agentId; connectionId }`
(`src/worker/workflow.ts`), but `SuperAgent.triggerWorkflow`
(`src/worker/agent.ts`) passes `{ prompt, connectionId, agentId }`.
Params are therefore modelled as a record of optional fields, a missing
field being JavaScript `undefined`. -/

structure RunParams where
  topic : Option String := none
  prompt : Option String := none
  agentId : Option String := none
  connectionId : Option String := none
deriving DecidableEq, Repr

/-- The params object built by `start_deep_research.execute`
(`src/worker/tools.ts`): `{ topic, agentId, connectionId }`. -/
def startResearchParams (topic agentId connectionId : String) : RunParams :=
  { topic := some topic, agentId := some agentId, connectionId := some connectionId }

/-- The params object built by `SuperAgent.triggerWorkflow`
(`src/worker/agent.ts` lines 99–105): `{ prompt, connectionId, agentId }`
— note: no `topic` field. -/
def triggerWorkflowParams (prompt connectionId agentId : String) : RunParams :=
  { topic := none, prompt := some prompt,
    agentId := some agentId, connectionId := some connectionId }

/-! ## Session events and the turn loop (`src/unnamed/part_005`) -/

/-- The single outbound event type sent over a connection:
`{type: text|status|info|error|stop, content}`. -/
inductive WsEvent
  | text (content : String)
  | status (content : String)
  | info (content : String)
  | error (content : String)
  | stop
deriving DecidableEq, Repr

/-- One item of `result.fullStream` consumed by `onMessage`: a
`text-delta` chunk or a `tool-call` chunk. -/
inductive StreamChunk
  | textDelta (s : String)
  | toolCall (name : String)
deriving DecidableEq, Repr

/-- A history message `{role, content}`. -/
structure Msg where
  role : String
  content : String
deriving DecidableEq, Repr

/-- One vector-index match as consumed by the RAG retrieval:
`m.metadata?.text` may be absent. -/
structure RMatch where
  mtext : Option String
deriving DecidableEq, Repr

/-- Collaborators used by `SuperAgent.onMessage`: the embedding model
(`env.AI.run`, may throw), the vector index (`env.VECTOR_DB.query`, may
throw), and the model/tool streaming loop (`streamText` of the `ai`
SDK): given the system prompt and message history it yields the stream
chunks produced before either normal completion (`none`) or an uncaught
failure (`some err`) surfaces from the iteration. -/
structure SessionEnv where
  embed : String → Except String Vec
  vquery : Vec → Except String (List RMatch)
  streamText : String → List Msg → List StreamChunk × Option String

/-- The state owned by one `SuperAgent` session actor: its message
history and the events sent to the connection, in emission order. -/
structure SessionState where
  messages : List Msg
  events : List WsEvent
deriving DecidableEq, Repr

/-- `{ role: "user", content: prompt }`. -/
def userMsg (prompt : String) : Msg := Msg.mk "user" prompt

/-- `matches.matches.map(m => m.metadata?.text).join("\n\n")`:
JavaScript `join` renders `undefined` elements as the empty string. -/
def contextOf (ms : List RMatch) : String :=
  String.intercalate "\n\n" (ms.map (fun m => m.mtext.getD ""))

/-- The system prompt assembled by `onMessage`; `context || "None"` is
JavaScript falsy-or. -/
def sessionSystemPrompt (context : String) : String :=
  "You are a helpful Super Agent.\n    Context from files: " ++ jsOr context "None" ++
    "\n    Use tools for Searching, Drawing, or Researching."

/-- Events emitted while consuming `result.fullStream`: a `text` event
per `text-delta` chunk, a `status` event per `tool-call` chunk. -/
def chunkEvents : List StreamChunk → List WsEvent
  | [] => []
  | StreamChunk.textDelta s :: cs => WsEvent.text s :: chunkEvents cs
  | StreamChunk.toolCall n :: cs =>
      WsEvent.status ("Using tool: " ++ n ++ "...") :: chunkEvents cs

/-- `fullResponse`: the concatenation of all `text-delta` chunks. -/
def chunkText : List StreamChunk → String
  | [] => ""
  | StreamChunk.textDelta s :: cs => s ++ chunkText cs
  | StreamChunk.toolCall _ :: cs => chunkText cs

/-- `SuperAgent.onMessage` (`src/unnamed/part_005`): pushes the user
message, performs RAG retrieval (outside the `try` block — a failure
there propagates, returned as `Except.error`), then streams the model
response inside `try`: on normal completion commits the assistant
message and emits `stop`; on an uncaught streaming failure the `catch`
emits one `error` event, commits nothing, and returns normally. -/
def onMessage (env : SessionEnv) (st : SessionState) (prompt : String) :
    SessionState × Except String Unit :=
  let msgs := st.messages ++ [userMsg prompt]
  match env.embed prompt with
  | Except.error e => (SessionState.mk msgs st.events, Except.error e)
  | Except.ok vec =>
    match env.vquery vec with
    | Except.error e => (SessionState.mk msgs st.events, Except.error e)
    | Except.ok ms =>
      let sys := sessionSystemPrompt (contextOf ms)
      match env.streamText sys msgs with
      | (cs, some e) =>
          (SessionState.mk msgs (st.events ++ chunkEvents cs ++ [WsEvent.error e]),
           Except.ok ())
      | (cs, none) =>
          (SessionState.mk (msgs ++ [Msg.mk "assistant" (chunkText cs)])
             (st.events ++ chunkEvents cs ++ [WsEvent.stop]),
           Except.ok ())

/-- `SuperAgent.broadcastResult` (`src/unnamed/part_005`): for each
currently-attached connection, send a `text` event with the update
banner followed by a `stop` event; nothing is stored for absent
connections. -/
def broadcastResult (conns : List String) (content : String) : List (String × WsEvent) :=
  conns.flatMap (fun c =>
    [(c, WsEvent.text ("\n\n🔔 **Research Update:**\n" ++ content)), (c, WsEvent.stop)])

/-! ## Capability registry (`src/worker/tools.ts`, `getTools`) -/

/-- Collaborators used by the capability handlers: the composite
puppeteer navigation (`launch`/`goto`/`$eval`, any stage may throw) and
the image-generation model call (`env.AI.run` on flux-1-schnell,
returning the base64 `response.image`; may throw). -/
structure CapEnv where
  fetchBodyText : String → Except String String
  aiImage : String → Except String String

/-- `web_search.execute`: the whole body is wrapped in
`try { ... } catch (error) { return "Search failed: ..." }`, so a
thrown failure is converted into an ordinary textual result. -/
def webSearchExec (env : CapEnv) (query : String) : Except String String :=
  match (env.fetchBodyText (googleSearchUrl query)).map
      (fun text => "Search Results: " ++ text.take 2000 ++ "...") with
  | Except.ok s => Except.ok s
  | Except.error e => Except.ok ("Search failed: " ++ e)

/-- `generate_image.execute` (`src/worker/tools.ts` lines 46–50): no
`try`/`catch` — a failure of the image-model call propagates out of the
handler. -/
def generateImageExec (env : CapEnv) (prompt : String) : Except String String := do
  let response ← env.aiImage prompt
  pure ("![Generated Image](data:image/jpeg;base64," ++ response ++ ")")

/-- State of the Workflows engine as seen from a capability call: the
runs enqueued so far and the names of step bodies the engine substrate
has executed. -/
structure EngineCtx where
  queue : List RunParams
  stepsRun : List String
deriving DecidableEq, Repr

/-- Modelled from the spec: `env.RESEARCH_WORKFLOW.create` is the
external `TaskEngine.schedule(pipelineParams) -> runId` collaborator, a
"fire-and-forget enqueue" — it assigns a run id (`rid`, chosen by the
platform) and records the pending run without executing any step. -/
def createRun (rid : String) (p : RunParams) (ctx : EngineCtx) : String × EngineCtx :=
  (rid, EngineCtx.mk (ctx.queue ++ [p]) ctx.stepsRun)

/-- `start_deep_research.execute` (`src/worker/tools.ts` lines 75–86):
enqueue a run with `{ topic, agentId, connectionId }` and return the
acknowledgement string naming the run id. -/
def startDeepResearchExec (rid agentId connectionId topic : String) (ctx : EngineCtx) :
    String × EngineCtx :=
  let r := createRun rid (startResearchParams topic agentId connectionId) ctx
  ("Started Research Workflow (ID: " ++ r.1 ++ "). I will notify you when done.", r.2)

/-! ## Durable task engine and `ResearchWorkflow.run`
(`src/worker/workflow.ts`) -/

/-- State threaded through one (re)entry of a workflow run: the durable
step log `(stepName, result)`, plus observation traces — `executed`
records each step body actually invoked during this entry (the "call
counter" of the spec), `aiPrompts` the prompts sent to the inference
collaborator, `saved` the `FILES_BUCKET.put` writes, and `sent` the
events delivered to connections. -/
structure EngineState where
  log : List (String × String)
  executed : List String
  aiPrompts : List String
  saved : List (String × String)
  sent : List (String × WsEvent)
deriving DecidableEq, Repr

/-- An engine state holding only a step log, with empty traces. -/
def mkLog (l : List (String × String)) : EngineState :=
  EngineState.mk l [] [] [] []

/-- Modelled from the spec: `step.do(name, body)` of the
`cloudflare:workers` Workflows engine (the engine itself is not part of
this repository).  "If the step log already contains a completed record
for that step name, its stored result is reused without re-execution;
otherwise the step's body executes once, and on success its result is
appended to the log before proceeding." -/
def stepDo (name : String) (body : EngineState → String × EngineState) (s : EngineState) :
    String × EngineState :=
  match s.log.lookup name with
  | some r => (r, s)
  | none =>
    let r := body s
    (r.1, EngineState.mk (r.2.log ++ [(name, r.1)]) (r.2.executed ++ [name])
      r.2.aiPrompts r.2.saved r.2.sent)

/-- Collaborators used by `ResearchWorkflow.run`: the planning model
call, the composite puppeteer-scrape-plus-`toMarkdown` conversion, the
synthesis model call, the (sanitized) timestamp used in the report
filename, and the directory resolving the recorded agent id to the
currently-attached connections of that session actor
(`SuperAgent.idFromString` / `get` followed by `getConnections`). -/
structure WfEnv where
  aiPlan : String → String
  scrapeConvert : String → String
  aiSynth : String → String
  now : String
  connectionsOf : String → List String

/-- The planning prompt of the `plan-research` step. -/
def planPrompt (topic : String) : String :=
  "You are a research planner. Return ONE authoritative URL to find detailed information about: \"" ++
    topic ++ "\". \n      Return ONLY the URL string. No markdown. No conversational filler."

/-- The user prompt of the `synthesize-report` step. -/
def synthPrompt (topic material : String) : String :=
  "TOPIC: " ++ topic ++ "\n\nSOURCE CONTENT:\n" ++ material ++ "\n\nREPORT:"

/-- The notification body assembled by the `save-and-notify` step. -/
def notifyMessage (topic targetUrl report filename : String) : String :=
  "\n### 🧠 Deep Research Completed\n**Topic:** " ++ topic ++ "\n**Source:** [" ++
    targetUrl ++ "](" ++ targetUrl ++ ")\n\n**Executive Summary:**\n" ++
    report.take 300 ++ "...\n\n[Download Full Report](/api/file/" ++ filename ++ ")\n        "

/-- `ResearchWorkflow.run` (`src/worker/workflow.ts`): destructures
`{ topic, agentId }` from the payload (absent fields are `undefined`),
then runs the four declared steps `plan-research`, `scrape-convert`,
`synthesize-report`, `save-and-notify` through `step.do` over the step
log, and returns the target URL. -/
def runResearch (env : WfEnv) (params : RunParams) (s : EngineState) :
    String × EngineState :=
  let topic := tsInterp params.topic
  let agentId := tsInterp params.agentId
  let step1 := stepDo "plan-research" (fun s =>
    let prompt := planPrompt topic
    let url := (env.aiPlan prompt).trim
    (if url.startsWith "http" then url else googleSearchUrl topic,
     EngineState.mk s.log s.executed (s.aiPrompts ++ [prompt]) s.saved s.sent)) s
  let targetUrl := step1.1
  let step2 := stepDo "scrape-convert" (fun s =>
    ((env.scrapeConvert targetUrl).take 40000, s)) step1.2
  let researchMaterial := step2.1
  let step3 := stepDo "synthesize-report" (fun s =>
    let prompt := synthPrompt topic researchMaterial
    (env.aiSynth prompt,
     EngineState.mk s.log s.executed (s.aiPrompts ++ [prompt]) s.saved s.sent)) step2.2
  let report := step3.1
  let step4 := stepDo "save-and-notify" (fun s =>
    let filename := "Report-" ++ env.now ++ ".md"
    let msg := notifyMessage topic targetUrl report filename
    ("", EngineState.mk s.log s.executed s.aiPrompts (s.saved ++ [(filename, report)])
      (s.sent ++ broadcastResult (env.connectionsOf agentId) msg))) step3.2
  (targetUrl, step4.2)

/-! ## Retrieval indexing (`src/worker/index.ts`, `/api/upload`
embedding/upsert loop) -/

/-- Metadata attached to one upserted vector:
`{ filename, text, type, processedAt }` — note there is no chunk-index
field. -/
structure VecMeta where
  filename : String
  mtext : String
  ftype : String
  processedAt : String
deriving DecidableEq, Repr

/-- One entry passed to `VECTOR_DB.upsert`. -/
structure VecEntry where
  id : String
  values : Vec
  metadata : VecMeta
deriving DecidableEq, Repr

/-- Collaborators of the indexing loop: the embedding model (may throw)
and the current ISO timestamp. -/
structure IdxEnv where
  embed : String → Except String Vec
  now : String

/-- The body of the `for (let i = 0; i < maxChunks; i++)` loop: embed
chunk `i`, build the entry `id = name-chunk-i` with metadata
`{ filename, text, type, processedAt }`.  A thrown embedding failure
aborts the loop (propagates). -/
def buildVectors (env : IdxEnv) (name ftype : String) :
    List String → Nat → Except String (List VecEntry)
  | [], _ => Except.ok []
  | c :: cs, i => do
    let v ← env.embed c
    let rest ← buildVectors env name ftype cs (i + 1)
    pure (VecEntry.mk (name ++ "-chunk-" ++ toString i) v
      (VecMeta.mk name c ftype env.now) :: rest)

/-- The embedding/upsert stage of `/api/upload`:
`maxChunks = Math.min(chunks.length, 50)` caps the loop, so exactly the
first 50 chunks are processed; the returned list is the `vectors` array
passed to `VECTOR_DB.upsert`. -/
def indexVectors (env : IdxEnv) (name ftype : String) (chunks : List String) :
    Except String (List VecEntry) :=
  buildVectors env name ftype (chunks.take 50) 0


/-! ## Helper predicates and lemmas -/

/-- Whether an event is an `error` event. -/
def isErrorEvent : WsEvent → Bool
  | WsEvent.error _ => true
  | _ => false

theorem chunkAux_take_flatten (size step : Nat) (hs : 1 ≤ step) (hss : step ≤ size) :
    ∀ (fuel : Nat) (text : List Char), text.length ≤ fuel →
      ((chunkAux size step fuel text).map (List.take step)).flatten = text := by
  intro fuel
  induction fuel with
  | zero =>
    intro text h
    have ht : text = [] := List.eq_nil_of_length_eq_zero (Nat.le_zero.mp h)
    subst ht
    simp [chunkAux]
  | succ n ih =>
    intro text h
    match text with
    | [] => simp [chunkAux]
    | c :: cs =>
      have hlen : ((c :: cs).drop step).length ≤ n := by
        rw [List.length_drop]
        have h1 : (c :: cs).length ≤ n + 1 := h
        omega
      have hrec := ih ((c :: cs).drop step) hlen
      simp only [chunkAux, List.map_cons, List.flatten_cons, hrec]
      rw [List.take_take, Nat.min_eq_left hss, List.take_append_drop]

theorem chunkEvents_no_error (cs : List StreamChunk) :
    (chunkEvents cs).countP isErrorEvent = 0 := by
  induction cs with
  | nil => rfl
  | cons c cs ih =>
    cases c with
    | textDelta s => simp [chunkEvents, List.countP_cons, isErrorEvent, ih]
    | toolCall n => simp [chunkEvents, List.countP_cons, isErrorEvent, ih]

theorem broadcastResult_length (conns : List String) (content : String) :
    (broadcastResult conns content).length = 2 * conns.length := by
  induction conns with
  | nil => rfl
  | cons c cs ih =>
    simp only [broadcastResult, List.flatMap_cons] at ih ⊢
    simp [List.length_append, ih]
    omega


/-! ## Claim theorems -/

/-- C2 counterexample: `chunk("abcdefghij", size=4, overlap=1)` does
NOT produce exactly the three windows `["abcd","defg","ghij"]` — the
loop guard `i < text.length` admits `i = 9` as well, producing a fourth
window `"j"`. -/
theorem c2_counterexample :
    chunk "abcdefghij".toList 4 1 ≠
      ["abcd".toList, "defg".toList, "ghij".toList] := by decide

/-- C2 (amended): `chunk("abcdefghij", size=4, overlap=1)` produces
exactly the four windows `["abcd","defg","ghij","j"]`, taken at
starting offsets 0, 3, 6 and 9, and no other windows. -/
theorem c2_chunk_scenario :
    chunk "abcdefghij".toList 4 1 =
      ["abcd".toList, "defg".toList, "ghij".toList, "j".toList] := by decide

/-- C7: for every input text and every valid pair `(size, overlap)`
with `0 ≤ overlap < size`, concatenating, for each produced window in
order, that window's characters at positions `[0, size-overlap)`
reconstructs the original input text exactly. -/
theorem c7_chunk_reconstruct (text : List Char) (size overlap : Nat)
    (h : overlap < size) :
    ((chunk text size overlap).map (List.take (size - overlap))).flatten = text := by
  apply chunkAux_take_flatten
  · omega
  · omega
  · exact Nat.le_refl _

/-- C7 witness: the reconstruction property evaluated at the concrete
scenario input. -/
theorem c7_witness :
    1 < 4 ∧
    ((chunk "abcdefghij".toList 4 1).map (List.take (4 - 1))).flatten =
      "abcdefghij".toList :=
  ⟨by decide, c7_chunk_reconstruct "abcdefghij".toList 4 1 (by decide)⟩

/-- A capability environment in which every collaborator call throws. -/
def capEnvFail : CapEnv :=
  CapEnv.mk (fun _ => Except.error "net down") (fun _ => Except.error "AI unavailable")

/-- C1 counterexample: the `generate_image` handler has no
`try`/`catch`, so when its image-model call throws, the failure
propagates out of the handler instead of being converted to a textual
result — refuting "for every capability handler ... the failure is
caught at the registry boundary". -/
theorem c1_counterexample :
    generateImageExec capEnvFail "a cat" = Except.error "AI unavailable" := rfl

/-- C1 (amended): the `web_search` handler catches every failure of its
body and converts it into a textual result returned to the model, but
the `generate_image` handler has no catch: a failure thrown by its
image-model call propagates past the registry boundary unchanged. -/
theorem c1_registry_error_handling :
    (∀ (env : CapEnv) (query : String), ∃ s, webSearchExec env query = Except.ok s) ∧
    (∀ (env : CapEnv) (prompt e : String),
      env.aiImage prompt = Except.error e →
      generateImageExec env prompt = Except.error e) := by
  constructor
  · intro env query
    unfold webSearchExec
    cases h : env.fetchBodyText (googleSearchUrl query) with
    | ok t => exact ⟨_, rfl⟩
    | error e => exact ⟨_, rfl⟩
  · intro env prompt e h
    unfold generateImageExec
    rw [h]
    rfl

/-- C1 witness: the amended behaviour evaluated at the all-failing
environment. -/
theorem c1_witness :
    (∃ s, webSearchExec capEnvFail "lean" = Except.ok s) ∧
    generateImageExec capEnvFail "a cat" = Except.error "AI unavailable" :=
  ⟨c1_registry_error_handling.1 capEnvFail "lean",
   c1_registry_error_handling.2 capEnvFail "a cat" "AI unavailable" rfl⟩


/-- A session environment whose embedding call throws. -/
def sessEnvEmbedFail : SessionEnv :=
  SessionEnv.mk (fun _ => Except.error "embed failed") (fun _ => Except.ok [])
    (fun _ _ => ([], none))

/-- C3 counterexample: the RAG retrieval of `onMessage` sits outside the
`try` block, so a failing embedding call propagates as an uncaught
exception out of the message handler — the turn aborts (without even an
`error` event) instead of degrading to an empty retrieval result. -/
theorem c3_counterexample :
    (onMessage sessEnvEmbedFail (SessionState.mk [] []) "hello").2 =
      Except.error "embed failed" ∧
    (onMessage sessEnvEmbedFail (SessionState.mk [] []) "hello").1.events = [] :=
  ⟨rfl, rfl⟩

/-- C3 (amended): when the vector index is empty, the retrieval step
yields the empty context (no error) and the turn proceeds to `stop`;
but when the embedding call fails, the exception propagates uncaught out
of the message handler, aborting the enclosing turn with the history
holding only the appended user message. -/
theorem c3_retrieval_best_effort :
    (∀ (env : SessionEnv) (st : SessionState) (prompt : String) (v : Vec)
        (cs : List StreamChunk),
      env.embed prompt = Except.ok v →
      env.vquery v = Except.ok [] →
      env.streamText (sessionSystemPrompt (contextOf []))
          (st.messages ++ [userMsg prompt]) = (cs, none) →
      contextOf [] = "" ∧
      (onMessage env st prompt).2 = Except.ok () ∧
      (onMessage env st prompt).1.events =
        st.events ++ chunkEvents cs ++ [WsEvent.stop]) ∧
    (∀ (env : SessionEnv) (st : SessionState) (prompt e : String),
      env.embed prompt = Except.error e →
      onMessage env st prompt =
        (SessionState.mk (st.messages ++ [userMsg prompt]) st.events,
         Except.error e)) := by
  constructor
  · intro env st prompt v cs hembed hquery hstream
    refine ⟨rfl, ?_, ?_⟩ <;> simp [onMessage, hembed, hquery, hstream]
  · intro env st prompt e hembed
    simp [onMessage, hembed]

/-- An all-succeeding session environment over an empty index. -/
def sessEnvEmptyIdx : SessionEnv :=
  SessionEnv.mk (fun _ => Except.ok [1]) (fun _ => Except.ok [])
    (fun _ _ => ([StreamChunk.textDelta "Hi"], none))

/-- C3 witness: both amended branches evaluated at concrete
environments. -/
theorem c3_witness :
    (contextOf [] = "" ∧
     (onMessage sessEnvEmptyIdx (SessionState.mk [] []) "hi").2 = Except.ok () ∧
     (onMessage sessEnvEmptyIdx (SessionState.mk [] []) "hi").1.events =
       [] ++ chunkEvents [StreamChunk.textDelta "Hi"] ++ [WsEvent.stop]) ∧
    onMessage sessEnvEmbedFail (SessionState.mk [] []) "hello" =
      (SessionState.mk ([] ++ [userMsg "hello"]) [], Except.error "embed failed") :=
  ⟨c3_retrieval_best_effort.1 sessEnvEmptyIdx (SessionState.mk [] []) "hi" [1]
      [StreamChunk.textDelta "Hi"] rfl rfl rfl,
   c3_retrieval_best_effort.2 sessEnvEmbedFail (SessionState.mk [] []) "hello"
      "embed failed" rfl⟩

/-- C5: when the model invocation raises an uncaught error during the
streaming pass, the turn emits exactly one `error` event, the handler
returns normally (the session is back to idle, ready for a new turn),
and no partial assistant message is committed — the history grows only
by the already-appended user message. -/
theorem c5_turn_error_semantics (env : SessionEnv) (st : SessionState)
    (prompt : String) (v : Vec) (ms : List RMatch) (cs : List StreamChunk)
    (e : String)
    (hembed : env.embed prompt = Except.ok v)
    (hquery : env.vquery v = Except.ok ms)
    (hstream : env.streamText (sessionSystemPrompt (contextOf ms))
        (st.messages ++ [userMsg prompt]) = (cs, some e)) :
    (onMessage env st prompt).2 = Except.ok () ∧
    (onMessage env st prompt).1.messages = st.messages ++ [userMsg prompt] ∧
    (onMessage env st prompt).1.events =
      st.events ++ chunkEvents cs ++ [WsEvent.error e] ∧
    (chunkEvents cs ++ [WsEvent.error e]).countP isErrorEvent = 1 := by
  refine ⟨?_, ?_, ?_, ?_⟩
  · simp [onMessage, hembed, hquery, hstream]
  · simp [onMessage, hembed, hquery, hstream]
  · simp [onMessage, hembed, hquery, hstream]
  · simp [List.countP_append, chunkEvents_no_error, List.countP_cons, isErrorEvent]

/-- A session environment whose model invocation fails mid-stream. -/
def sessEnvStreamFail : SessionEnv :=
  SessionEnv.mk (fun _ => Except.ok [1]) (fun _ => Except.ok [])
    (fun _ _ => ([StreamChunk.textDelta "Hel"], some "model crashed"))

/-- C5 witness: the failure semantics evaluated at a concrete
mid-stream model crash. -/
theorem c5_witness :
    (onMessage sessEnvStreamFail (SessionState.mk [] []) "hi").2 = Except.ok () ∧
    (onMessage sessEnvStreamFail (SessionState.mk [] []) "hi").1.messages =
      [] ++ [userMsg "hi"] ∧
    (onMessage sessEnvStreamFail (SessionState.mk [] []) "hi").1.events =
      [] ++ chunkEvents [StreamChunk.textDelta "Hel"] ++ [WsEvent.error "model crashed"] ∧
    (chunkEvents [StreamChunk.textDelta "Hel"] ++
      [WsEvent.error "model crashed"]).countP isErrorEvent = 1 :=
  c5_turn_error_semantics sessEnvStreamFail (SessionState.mk [] []) "hi" [1] []
    [StreamChunk.textDelta "Hel"] "model crashed" rfl rfl rfl


/-- C9: `start_deep_research.execute` only enqueues a task-engine run
(with `{topic, agentId, connectionId}`) and returns immediately with an
acknowledgement string containing the run identifier; it executes none
of the run's steps, and a turn whose stream completes (which never
awaits the run) reaches its `stop` event. -/
theorem c9_start_research_async :
    (∀ (rid agentId connId topic : String) (ctx : EngineCtx),
      (∃ pre post,
        (startDeepResearchExec rid agentId connId topic ctx).1 = pre ++ rid ++ post) ∧
      (startDeepResearchExec rid agentId connId topic ctx).2.queue =
        ctx.queue ++ [startResearchParams topic agentId connId] ∧
      (startDeepResearchExec rid agentId connId topic ctx).2.stepsRun =
        ctx.stepsRun) ∧
    (∀ (env : SessionEnv) (st : SessionState) (prompt : String) (v : Vec)
        (ms : List RMatch) (cs : List StreamChunk),
      env.embed prompt = Except.ok v →
      env.vquery v = Except.ok ms →
      env.streamText (sessionSystemPrompt (contextOf ms))
          (st.messages ++ [userMsg prompt]) = (cs, none) →
      (onMessage env st prompt).1.events =
        st.events ++ chunkEvents cs ++ [WsEvent.stop] ∧
      (onMessage env st prompt).2 = Except.ok ()) := by
  constructor
  · intro rid agentId connId topic ctx
    exact ⟨⟨"Started Research Workflow (ID: ", "). I will notify you when done.",
      rfl⟩, rfl, rfl⟩
  · intro env st prompt v ms cs hembed hquery hstream
    constructor <;> simp [onMessage, hembed, hquery, hstream]

/-- A session environment whose stream requests the research tool and
then completes. -/
def sessEnvResearch : SessionEnv :=
  SessionEnv.mk (fun _ => Except.ok [1]) (fun _ => Except.ok [])
    (fun _ _ => ([StreamChunk.toolCall "start_deep_research",
                  StreamChunk.textDelta "Started."], none))

/-- C9 witness: the acknowledgement/enqueue behaviour and the turn
completion evaluated at concrete inputs. -/
theorem c9_witness :
    ((∃ pre post,
        (startDeepResearchExec "run-1" "agent-1" "conn-1" "quantum"
          (EngineCtx.mk [] [])).1 = pre ++ "run-1" ++ post) ∧
      (startDeepResearchExec "run-1" "agent-1" "conn-1" "quantum"
        (EngineCtx.mk [] [])).2.queue =
        [] ++ [startResearchParams "quantum" "agent-1" "conn-1"] ∧
      (startDeepResearchExec "run-1" "agent-1" "conn-1" "quantum"
        (EngineCtx.mk [] [])).2.stepsRun = ([] : List String)) ∧
    ((onMessage sessEnvResearch (SessionState.mk [] []) "research quantum").1.events =
        [] ++ chunkEvents [StreamChunk.toolCall "start_deep_research",
          StreamChunk.textDelta "Started."] ++ [WsEvent.stop] ∧
      (onMessage sessEnvResearch (SessionState.mk [] []) "research quantum").2 =
        Except.ok ()) :=
  ⟨c9_start_research_async.1 "run-1" "agent-1" "conn-1" "quantum" (EngineCtx.mk [] []),
   c9_start_research_async.2 sessEnvResearch (SessionState.mk [] []) "research quantum"
     [1] [] [StreamChunk.toolCall "start_deep_research", StreamChunk.textDelta "Started."]
     rfl rfl rfl⟩

set_option maxRecDepth 2000 in
/-- C10: the params built by `SuperAgent.triggerWorkflow` (the
keyword-routing path) are `{prompt, connectionId, agentId}` with no
`topic` field, while `ResearchWorkflow.run` destructures `topic` from
its payload; for all such runs the bound topic is `undefined`, and both
the planning and synthesis prompts interpolate the string
`"undefined"`. -/
theorem c10_trigger_topic_undefined (env : WfEnv)
    (promptStr connId agentId : String) :
    (triggerWorkflowParams promptStr connId agentId).topic = none ∧
    tsInterp (triggerWorkflowParams promptStr connId agentId).topic = "undefined" ∧
    (runResearch env (triggerWorkflowParams promptStr connId agentId)
        (mkLog [])).2.aiPrompts =
      [planPrompt "undefined",
       synthPrompt "undefined"
         ((env.scrapeConvert
             (let u := (env.aiPlan (planPrompt "undefined")).trim
              if u.startsWith "http" then u
              else googleSearchUrl "undefined")).take 40000)] :=
  ⟨rfl, rfl, by
    simp [runResearch, stepDo, mkLog, triggerWorkflowParams, tsInterp, List.lookup]⟩

set_option maxRecDepth 2000 in
/-- C4: re-entering `ResearchWorkflow.run` with a step log already
containing completed records for a prefix of the declared step sequence
re-executes none of those steps' bodies (their stored results are
reused) and executes only the remaining steps, in declared order; in
particular, with the first two steps already logged, only the last two
step bodies run, the stored plan result is returned unchanged, and the
only model prompt issued is the synthesis prompt built from the stored
scrape result. -/
theorem c4_resume_skips_completed_steps :
    (∀ (env : WfEnv) (params : RunParams),
      (runResearch env params (mkLog [])).2.executed =
        ["plan-research", "scrape-convert", "synthesize-report", "save-and-notify"]) ∧
    (∀ (env : WfEnv) (params : RunParams) (u : String),
      (runResearch env params (mkLog [("plan-research", u)])).2.executed =
        ["scrape-convert", "synthesize-report", "save-and-notify"]) ∧
    (∀ (env : WfEnv) (params : RunParams) (u m : String),
      (runResearch env params
          (mkLog [("plan-research", u), ("scrape-convert", m)])).2.executed =
        ["synthesize-report", "save-and-notify"] ∧
      (runResearch env params
          (mkLog [("plan-research", u), ("scrape-convert", m)])).1 = u ∧
      (runResearch env params
          (mkLog [("plan-research", u), ("scrape-convert", m)])).2.aiPrompts =
        [synthPrompt (tsInterp params.topic) m]) ∧
    (∀ (env : WfEnv) (params : RunParams) (u m r : String),
      (runResearch env params (mkLog [("plan-research", u), ("scrape-convert", m),
          ("synthesize-report", r)])).2.executed = ["save-and-notify"]) ∧
    (∀ (env : WfEnv) (params : RunParams) (u m r z : String),
      (runResearch env params (mkLog [("plan-research", u), ("scrape-convert", m),
          ("synthesize-report", r), ("save-and-notify", z)])).2 =
        mkLog [("plan-research", u), ("scrape-convert", m),
          ("synthesize-report", r), ("save-and-notify", z)]) := by
  refine ⟨fun env params => ?_, fun env params u => ?_,
    fun env params u m => ⟨?_, ?_, ?_⟩,
    fun env params u m r => ?_, fun env params u m r z => ?_⟩ <;>
  simp [runResearch, stepDo, mkLog, List.lookup, tsInterp]


set_option maxRecDepth 2000 in
/-- C6: every completed task-engine run resolves the originating
session actor by its recorded opaque identifier (`agentId`) and, in its
final step, delivers to every currently-attached connection of that
session a synthetic assistant message event followed by a `stop` event;
the deliveries are exactly two events per attached connection, so with
no connection attached nothing is delivered and nothing is queued. -/
theorem c6_final_step_notification (env : WfEnv) (params : RunParams) :
    (∃ msg, (runResearch env params (mkLog [])).2.sent =
      (env.connectionsOf (tsInterp params.agentId)).flatMap
        (fun c => [(c, WsEvent.text msg), (c, WsEvent.stop)])) ∧
    (runResearch env params (mkLog [])).2.sent.length =
      2 * (env.connectionsOf (tsInterp params.agentId)).length := by
  refine ⟨⟨"\n\n🔔 **Research Update:**\n" ++ notifyMessage (tsInterp params.topic)
    (if (env.aiPlan (planPrompt (tsInterp params.topic))).trim.startsWith "http"
      then (env.aiPlan (planPrompt (tsInterp params.topic))).trim
      else googleSearchUrl (tsInterp params.topic))
    (env.aiSynth (synthPrompt (tsInterp params.topic)
      ((env.scrapeConvert
        (if (env.aiPlan (planPrompt (tsInterp params.topic))).trim.startsWith "http"
          then (env.aiPlan (planPrompt (tsInterp params.topic))).trim
          else googleSearchUrl (tsInterp params.topic))).take 40000)))
    ("Report-" ++ env.now ++ ".md"), ?_⟩, ?_⟩
  · simp [runResearch, stepDo, mkLog, List.lookup, broadcastResult]
  · simp [runResearch, stepDo, mkLog, List.lookup, broadcastResult_length]

/-- Per-index description of the entries built by the embedding/upsert
loop: entry `j` of the processed window carries id
`name ++ "-chunk-" ++ j` (shifted by the starting index `i`) and
metadata holding the source name and the chunk text. -/
theorem buildVectors_spec (env : IdxEnv) (name ftype : String) :
    ∀ (cs : List String) (i : Nat),
      (∀ c ∈ cs, (env.embed c).isOk) →
      ∃ es, buildVectors env name ftype cs i = Except.ok es ∧
        es.length = cs.length ∧
        ∀ j (h : j < es.length) (h2 : j < cs.length),
          (es.get ⟨j, h⟩).id = name ++ "-chunk-" ++ toString (i + j) ∧
          (es.get ⟨j, h⟩).metadata.filename = name ∧
          (es.get ⟨j, h⟩).metadata.mtext = cs.get ⟨j, h2⟩ := by
  intro cs
  induction cs with
  | nil =>
    intro i _
    exact ⟨[], rfl, rfl, by intro j h h2; exact absurd h (by simp)⟩
  | cons c cs ih =>
    intro i hok
    have hc : (env.embed c).isOk := hok c (List.mem_cons_self c cs)
    match hv : env.embed c with
    | Except.error e => rw [hv] at hc; simp [Except.isOk, Except.toBool] at hc
    | Except.ok v =>
      obtain ⟨es, hes, hlen, hidx⟩ := ih (i + 1)
        (fun x hx => hok x (List.mem_cons_of_mem c hx))
      refine ⟨VecEntry.mk (name ++ "-chunk-" ++ toString i) v
          (VecMeta.mk name c ftype env.now) :: es, ?_, ?_, ?_⟩
      · simp only [buildVectors, hv, hes]
        rfl
      · simp [hlen]
      · intro j h h2
        match j with
        | 0 => exact ⟨by simp, rfl, rfl⟩
        | Nat.succ k =>
          have hk : k < es.length := by
            simp only [List.length_cons] at h
            omega
          have hk2 : k < cs.length := by
            simp only [List.length_cons] at h2
            omega
          obtain ⟨h1, h2x, h3⟩ := hidx k hk hk2
          refine ⟨?_, h2x, h3⟩
          have heq : i + Nat.succ k = i + 1 + k := by omega
          rw [heq]
          exact h1

/-- A concrete indexing environment: embedding always succeeds. -/
def idxEnvOk : IdxEnv := IdxEnv.mk (fun _ => Except.ok [0]) "t0"

/-- C8 counterexample: two chunks with identical text at distinct
indices produce entries whose metadata records are identical — the
chunk index appears only in the id, so the metadata does not contain
the chunk index, refuting "metadata containing the source name, the
chunk text and the chunk index". -/
theorem c8_counterexample :
    indexVectors idxEnvOk "doc" "text/plain" ["x", "x"] =
      Except.ok
        [VecEntry.mk "doc-chunk-0" [0] (VecMeta.mk "doc" "x" "text/plain" "t0"),
         VecEntry.mk "doc-chunk-1" [0] (VecMeta.mk "doc" "x" "text/plain" "t0")] ∧
    ("doc-chunk-0" : String) ≠ "doc-chunk-1" ∧
    VecMeta.mk "doc" "x" "text/plain" "t0" = VecMeta.mk "doc" "x" "text/plain" "t0" :=
  ⟨rfl, by decide, rfl⟩

/-- C8 (amended): indexing embeds and upserts at most 50 chunks per
call (exactly `min chunks.length 50`, so excess chunks are silently
dropped without error), and every processed chunk is upserted under the
deterministic id `name-chunk-index` with metadata containing the source
name and the chunk text (plus content type and timestamp) — but not the
chunk index, which appears only in the id. -/
theorem c8_index_cap_ids (env : IdxEnv) (name ftype : String)
    (chunks : List String)
    (hok : ∀ c ∈ chunks.take 50, (env.embed c).isOk) :
    ∃ es, indexVectors env name ftype chunks = Except.ok es ∧
      es.length = min chunks.length 50 ∧
      ∀ j (h : j < es.length) (h2 : j < chunks.length),
        (es.get ⟨j, h⟩).id = name ++ "-chunk-" ++ toString j ∧
        (es.get ⟨j, h⟩).metadata.filename = name ∧
        (es.get ⟨j, h⟩).metadata.mtext = chunks.get ⟨j, h2⟩ := by
  obtain ⟨es, hes, hlen, hidx⟩ := buildVectors_spec env name ftype (chunks.take 50) 0 hok
  refine ⟨es, hes, ?_, ?_⟩
  · rw [hlen, List.length_take, Nat.min_comm]
  · intro j h h2
    have hjt : j < (chunks.take 50).length := by rw [← hlen]; exact h
    obtain ⟨h1, h2x, h3⟩ := hidx j h hjt
    refine ⟨by simpa using h1, h2x, ?_⟩
    rw [h3]
    simp [List.get_eq_getElem]

/-- C8 witness: the cap-and-id description evaluated at a concrete
two-chunk ingestion. -/
theorem c8_witness :
    (∀ c ∈ (["a", "b"] : List String).take 50, (idxEnvOk.embed c).isOk) ∧
    ∃ es, indexVectors idxEnvOk "doc" "text/plain" ["a", "b"] = Except.ok es ∧
      es.length = min (["a", "b"] : List String).length 50 ∧
      ∀ j (h : j < es.length) (h2 : j < (["a", "b"] : List String).length),
        (es.get ⟨j, h⟩).id = "doc" ++ "-chunk-" ++ toString j ∧
        (es.get ⟨j, h⟩).metadata.filename = "doc" ∧
        (es.get ⟨j, h⟩).metadata.mtext = (["a", "b"] : List String).get ⟨j, h2⟩ :=
  ⟨by decide, c8_index_cap_ids idxEnvOk "doc" "text/plain" ["a", "b"] (by decide)⟩

end AgentSpec
